import Mathlib

/-!
Shallow embedding of `src/game.js` (the `GameClient` class of a browser
MMORPG client) for verification of its specification.

Modelling conventions:
* JS numbers used for coordinates and sizes are modelled as `ℚ` (all
  arithmetic in the relevant code paths is exact on rationals).
* A JS object used as a string-keyed dictionary is modelled as a function
  `String → Option _`; a JSON object literal arriving in a message is
  modelled as an association list `List (String × _)` (iteration and
  duplicate-key resolution follow insertion order, as in JS).
* A player record arriving from the server may mention only some fields
  (`players_moved` deltas); every field of `PlayerRec` is therefore an
  `Option`, with `none` standing for a JS `undefined` / absent property.
* Effects (canvas repaints, DOM updates, scheduled image loads,
  `console.error` calls) are returned explicitly in an `Effects` record
  instead of being performed.
-/

set_option autoImplicit false

namespace Game

/-- Facing direction of a player (`player.facing` in `game.js`).
Only `north`, `south`, `east` are backed by stored frames; `west` is
derived at render time by mirroring `east` (lines 265-270). -/
inductive Direction where
  | north
  | south
  | east
  | west
  deriving DecidableEq, Repr

/-- A player record as transmitted by the server.  Fields mirror the
properties read from `message.players[id]` / `message.player` in
`game.js`; each is optional because a JS object may omit any of them
(a `players_moved` delta can be sparse). -/
structure PlayerRec where
  id : Option String
  x : Option ℚ
  y : Option ℚ
  facing : Option Direction
  animationFrame : Option Nat
  avatar : Option String
  username : Option String
  deriving DecidableEq, Repr

/-- An avatar definition (`message.avatar` in `game.js`): a name and the
frame-source lists for the three stored directions (`avatar.frames.north`
etc., lines 189-191).  No `west` list exists in the data. -/
structure Avatar where
  name : String
  north : List String
  south : List String
  east : List String
  deriving DecidableEq, Repr

/-- The frame lists of an avatar per direction.  `west` has no stored
frames (the JS object `avatar.frames` has no `west` key). -/
def framesOf (a : Avatar) : Direction → List String
  | .north => a.north
  | .south => a.south
  | .east => a.east
  | .west => []

/-- The `players_moved` handler, line 162: `Object.assign(this.players,
message.players)`.  For each binding of the message object, in insertion
order, the whole stored value at that key is replaced by the message's
value; keys not present in the message are left as they were. -/
def applyPlayersMoved (store : String → Option PlayerRec)
    (moved : List (String × PlayerRec)) : String → Option PlayerRec :=
  moved.foldl (fun acc kv => fun k => if k = kv.1 then some kv.2 else acc k) store

/-- Last binding of key `k` in an association list (JS object semantics:
a later duplicate key wins).  Helper for specifying `applyPlayersMoved`. -/
def lookupLast : List (String × PlayerRec) → String → Option PlayerRec
  | [], _ => none
  | kv :: rest, k =>
    match lookupLast rest k with
    | some v => some v
    | none => if k = kv.1 then some kv.2 else none

/-- A JSON object literal (association list) read as a string-keyed map,
last duplicate key winning: models `this.players = message.players`
(line 142). -/
def toPlayerMap (ps : List (String × PlayerRec)) : String → Option PlayerRec :=
  ps.foldl (fun acc kv => fun k => if k = kv.1 then some kv.2 else acc k) (fun _ => none)

/-- Models `this.avatars = message.avatars` (line 143). -/
def toAvatarMap (avs : List (String × Avatar)) : String → Option Avatar :=
  avs.foldl (fun acc kv => fun k => if k = kv.1 then some kv.2 else acc k) (fun _ => none)

/-- The image loads scheduled by one fresh `loadAvatarImage` call
(lines 189-198): for each of the directions `north`, `south`, `east`, in
that order, one load per index of that direction's frame list.  A load is
identified by its (avatar name, direction, frame index) triple. -/
def frameLoads (a : Avatar) : List (String × Direction × Nat) :=
  ((List.range a.north.length).map fun i => (a.name, Direction.north, i)) ++
  ((List.range a.south.length).map fun i => (a.name, Direction.south, i)) ++
  ((List.range a.east.length).map fun i => (a.name, Direction.east, i))

/-- `loadAvatarImage` (lines 182-200), at the level observed by its own
guard.  `cache k` models the truthiness of `this.avatarImages[k]` (after a
first call the entry is a - truthy - object, even before any frame has
finished decoding).  Returns the updated cache and the list of image loads
scheduled by this call; `if (this.avatarImages[avatarKey]) return;`
(line 184) makes a repeated call schedule nothing. -/
def loadAvatarImage (cache : String → Bool) (a : Avatar) :
    (String → Bool) × List (String × Direction × Nat) :=
  if cache a.name then (cache, [])
  else ((fun k => if k = a.name then true else cache k), frameLoads a)

/-- `loadAvatarImages` (lines 176-180): load every avatar of a list
(`Object.values(this.avatars)`), threading the cache and concatenating
the scheduled loads. -/
def loadAvatarImages (cache : String → Bool) (avs : List Avatar) :
    (String → Bool) × List (String × Direction × Nat) :=
  avs.foldl (fun acc a =>
    let r := loadAvatarImage acc.1 a
    (r.1, acc.2 ++ r.2)) (cache, [])

/-- The mutable client state touched by `handleServerMessage`
(constructor lines 11-14).  `avatarImages` is kept at the granularity the
message handler observes: whether the per-avatar cache entry exists
(its frame contents are populated asynchronously by `img.onload`
callbacks and are modelled separately as `AvatarImages` for rendering). -/
structure GameState where
  myPlayerId : Option String
  players : String → Option PlayerRec
  avatars : String → Option Avatar
  avatarImages : String → Bool

/-- The state right after the constructor runs (lines 11-14): no local
player, empty stores. -/
def initialState : GameState :=
  { myPlayerId := none
    players := fun _ => none
    avatars := fun _ => none
    avatarImages := fun _ => false }

/-- Side effects requested by one `handleServerMessage` invocation:
whether `this.draw()`, `this.updateUI()`, `this.updateCamera()` were
called, which image loads were scheduled, and whether `console.error`
was called. -/
structure Effects where
  draw : Bool
  uiUpdate : Bool
  cameraUpdate : Bool
  loads : List (String × Direction × Nat)
  errorLog : Bool
  deriving DecidableEq, Repr

/-- No effect at all (the fall-through of the `switch` for an action with
no `case`). -/
def emptyEffects : Effects :=
  { draw := false, uiUpdate := false, cameraUpdate := false, loads := [], errorLog := false }

/-- A parsed server message (section 6 of the spec; the shapes read by
`handleServerMessage`).  `unknown` stands for any payload whose `action`
matches no `case` of the `switch` (lines 138-173 have no `default`). -/
inductive ServerMessage where
  | joinGame (success : Bool) (playerId : String)
      (players : List (String × PlayerRec)) (avatars : List (String × Avatar))
      (error : String)
  | playerJoined (player : PlayerRec) (avatar : Avatar)
  | playersMoved (players : List (String × PlayerRec))
  | playerLeft (playerId : String)
  | unknown (action : String)

/-- `handleServerMessage` (lines 137-174).  Returns the new state and the
effects requested.  In the `player_joined` case the store key is
`message.player.id`; a missing `id` would be coerced by JS to the literal
property key `"undefined"`, which `Option.getD "undefined"` reproduces. -/
def handleServerMessage (s : GameState) (m : ServerMessage) : GameState × Effects :=
  match m with
  | .joinGame success playerId players avatars _error =>
    if success then
      let r := loadAvatarImages s.avatarImages (avatars.map Prod.snd)
      ({ myPlayerId := some playerId
         players := toPlayerMap players
         avatars := toAvatarMap avatars
         avatarImages := r.1 },
       { draw := true, uiUpdate := true, cameraUpdate := true, loads := r.2, errorLog := false })
    else
      (s, { emptyEffects with errorLog := true })
  | .playerJoined player avatar =>
    let key := player.id.getD "undefined"
    let r := loadAvatarImage s.avatarImages avatar
    ({ s with
       players := fun k => if k = key then some player else s.players k
       avatars := fun k => if k = avatar.name then some avatar else s.avatars k
       avatarImages := r.1 },
     { draw := true, uiUpdate := true, cameraUpdate := false, loads := r.2, errorLog := false })
  | .playersMoved players =>
    ({ s with players := applyPlayersMoved s.players players },
     { draw := true, uiUpdate := true, cameraUpdate := true, loads := [], errorLog := false })
  | .playerLeft playerId =>
    ({ s with players := fun k => if k = playerId then none else s.players k },
     { draw := true, uiUpdate := true, cameraUpdate := false, loads := [], errorLog := false })
  | .unknown _ => (s, emptyEffects)

/-- Outcome of dispatching one socket `message` event (lines 70-73).
`uncaught = true` records that an exception propagated out of the
`onmessage` listener (the browser's event dispatch logs it and continues;
no state beyond `state` was changed and none of `effects` happened). -/
structure HandlerResult where
  state : GameState
  effects : Effects
  uncaught : Bool

/-- The `onmessage` listener (lines 70-73): `JSON.parse(event.data)` then
`handleServerMessage`.  `raw = none` models a payload that fails to parse:
`JSON.parse` throws a `SyntaxError` before any state is touched, and the
exception escapes the listener (there is no `try`/`catch` in `game.js`). -/
def onMessage (s : GameState) (raw : Option ServerMessage) : HandlerResult :=
  match raw with
  | none => { state := s, effects := emptyEffects, uncaught := true }
  | some m =>
    let r := handleServerMessage s m
    { state := r.1, effects := r.2, uncaught := false }

/-- Movement direction of an outbound `move` message (the strings
`'up'`/`'down'`/`'left'`/`'right'` of lines 112-119). -/
inductive MoveDirection where
  | up
  | down
  | left
  | right
  deriving DecidableEq, Repr

/-- An outbound client message produced by `handleMovement`
(lines 122-134). -/
inductive ClientMessage where
  | move (direction : MoveDirection)
  | stop
  deriving DecidableEq, Repr

/-- The arrow-key entries of `this.keysPressed` read by `handleMovement`
(lines 112-119). -/
structure KeysPressed where
  arrowUp : Bool
  arrowDown : Bool
  arrowLeft : Bool
  arrowRight : Bool
  deriving DecidableEq, Repr

/-- `handleMovement` (lines 107-135).  Returns the single message sent on
the socket, or `none` when the socket is not open (line 108 returns
early).  The `if`/`else if` chain fixes the precedence
up > down > left > right; when no arrow key is held a `stop` message is
sent. -/
def handleMovement (socketOpen : Bool) (k : KeysPressed) : Option ClientMessage :=
  if !socketOpen then none
  else if k.arrowUp then some (.move .up)
  else if k.arrowDown then some (.move .down)
  else if k.arrowLeft then some (.move .left)
  else if k.arrowRight then some (.move .right)
  else some .stop

/-- `this.avatarSize` (line 19). -/
def avatarSize : ℚ := 48

/-- `updateCamera` (lines 225-237), for a present local player with
numeric coordinates `(px, py)`: center the camera on the player, then
clamp each axis to the world bounds.  (When `this.myPlayerId` or the
corresponding player is absent, line 226 returns early and the camera is
left unchanged; that path touches no arithmetic and is not modelled
here.) -/
def updateCamera (px py canvasW canvasH worldW worldH : ℚ) : ℚ × ℚ :=
  let cameraX := px - canvasW / 2
  let cameraY := py - canvasH / 2
  (max 0 (min cameraX (worldW - canvasW)), max 0 (min cameraY (worldH - canvasH)))

/-- The spec's clamp, written from its words in section 4.3:
`clamp(v, min=lo, max=hi)`. -/
def specClamp (v lo hi : ℚ) : ℚ := max lo (min v hi)

/-- `worldToScreen` (lines 239-244). -/
def worldToScreen (cameraX cameraY worldX worldY : ℚ) : ℚ × ℚ :=
  (worldX - cameraX, worldY - cameraY)

/-- `isVisible` (lines 246-252): the screen position must lie within the
viewport extended by one `avatarSize` margin on every side (all four
comparisons are non-strict). -/
def isVisible (cameraX cameraY canvasW canvasH worldX worldY : ℚ) : Bool :=
  let screen := worldToScreen cameraX cameraY worldX worldY
  decide (-avatarSize ≤ screen.1) && decide (screen.1 ≤ canvasW + avatarSize) &&
  decide (-avatarSize ≤ screen.2) && decide (screen.2 ≤ canvasH + avatarSize)

/-- A decoded image (`new Image()` after `onload`): its source and its
natural dimensions, read at lines 278-280. -/
structure Image where
  src : String
  width : ℚ
  height : ℚ
  deriving DecidableEq, Repr

/-- `this.avatarImages` as the renderer reads it (lines 259, 272-275):
per avatar key, per direction, a partially populated frame array
(`frames[index]` is `undefined` until that frame's `onload` ran; the
`west` direction is never a key of the inner object). -/
def AvatarImages : Type :=
  String → Option (Direction → Option (Nat → Option Image))

/-- Frame resolution, lines 262-275 of `drawAvatar`: substitute `east`
for `west` and flag a horizontal flip; return the image at the frame
index with the flip flag, or `none` when the cache entry, direction
array, or frame is missing. -/
def resolveFrame (images : AvatarImages) (key : String) (facing : Direction)
    (frameIndex : Nat) : Option (Image × Bool) :=
  let direction := if facing = Direction.west then Direction.east else facing
  let flipHorizontal := decide (facing = Direction.west)
  match images key with
  | none => none
  | some dirImages =>
    match dirImages direction with
    | none => none
    | some frames =>
      match frames frameIndex with
      | none => none
      | some img => some (img, flipHorizontal)

/-- `player.animationFrame || 0` (line 263): any falsy value (absent
field, and the number `0` itself) yields index `0`. -/
def animIndex (p : PlayerRec) : Nat :=
  match p.animationFrame with
  | none => 0
  | some n => n

/-- The drawing `drawAvatar` (lines 254-311) performs for one player,
or `none` when the player is skipped (culled, avatar unregistered,
cache entry or frame missing, or a needed field absent - JS `NaN` /
`undefined` comparisons and lookups all fall into the same early
returns). -/
structure DrawCommand where
  img : Image
  flipHorizontal : Bool
  x : ℚ
  y : ℚ
  width : ℚ
  height : ℚ
  username : Option String
  deriving DecidableEq, Repr

/-- `drawAvatar` (lines 254-311): cull with `isVisible`, look up the
avatar and its image cache entry, resolve the frame, and compute the
aspect-preserving, feet-anchored draw rectangle.  A player with a
non-numeric `x`/`y` fails every `isVisible` comparison (`NaN`), and a
missing `facing` makes the direction lookup miss, so those cases return
`none` exactly as the early returns do. -/
def drawAvatar (avatars : String → Option Avatar) (images : AvatarImages)
    (cameraX cameraY canvasW canvasH : ℚ) (p : PlayerRec) : Option DrawCommand :=
  match p.x, p.y with
  | some worldX, some worldY =>
    if isVisible cameraX cameraY canvasW canvasH worldX worldY then
      let screen := worldToScreen cameraX cameraY worldX worldY
      match p.avatar with
      | none => none
      | some key =>
        match avatars key, images key with
        | some _, some _ =>
          match p.facing with
          | none => none
          | some facing =>
            match resolveFrame images key facing (animIndex p) with
            | none => none
            | some (img, flipHorizontal) =>
              let aspectRatio := img.width / img.height
              let avatarWidth := avatarSize
              let avatarHeight := avatarSize / aspectRatio
              let x := screen.1 - avatarWidth / 2
              let y := screen.2 - avatarHeight
              some { img := img, flipHorizontal := flipHorizontal, x := x, y := y,
                     width := avatarWidth, height := avatarHeight, username := p.username }
        | _, _ => none
    else none
  | _, _ => none

/-! Concrete sample data, used to instantiate the theorems below on the
scenarios of the spec. -/

/-- The spec scenario's prior state of player `p2`:
`{x:1, y:1, facing:'north'}`. -/
def p2Old : PlayerRec :=
  { id := none, x := some 1, y := some 1, facing := some .north,
    animationFrame := none, avatar := none, username := none }

/-- The spec scenario's `players_moved` delta for `p2`: `{x:5}`. -/
def p2Delta : PlayerRec :=
  { id := none, x := some 5, y := none, facing := none,
    animationFrame := none, avatar := none, username := none }

/-- What the spec scenario claims the merge yields:
`{x:5, y:1, facing:'north'}`. -/
def p2Claimed : PlayerRec := { p2Old with x := some 5 }

/-- A store holding only `p2`. -/
def storeBefore : String → Option PlayerRec :=
  fun k => if k = "p2" then some p2Old else none

/-- A store holding `p1` and `p2`. -/
def storeTwo : String → Option PlayerRec :=
  fun k => if k = "p1" then some p2Old else if k = "p2" then some p2Old else none

/-- A client state whose player store is `storeTwo`. -/
def stateTwo : GameState := { initialState with players := storeTwo }

/-- A sample decoded east frame. -/
def img0 : Image := { src := "east-frame-0", width := 32, height := 64 }

/-- A frame array with only index `0` loaded. -/
def sampleFrames : Nat → Option Image :=
  fun i => match i with
  | 0 => some img0
  | _ => none

/-- Per-direction frame arrays with `north` and `east` present. -/
def sampleDirImages : Direction → Option (Nat → Option Image) :=
  fun d => match d with
  | .north => some sampleFrames
  | .east => some sampleFrames
  | _ => none

/-- An image cache where every avatar key resolves to
`sampleDirImages`. -/
def sampleImages : AvatarImages := fun _ => some sampleDirImages

/-- A sample avatar definition. -/
def sampleAvatar : Avatar :=
  { name := "ada", north := ["n0", "n1"], south := ["s0"], east := ["e0"] }

/-- An avatar store where every key resolves to `sampleAvatar`. -/
def sampleAvatars : String → Option Avatar := fun _ => some sampleAvatar

/-- An empty image-presence cache (fresh client). -/
def noCache : String → Bool := fun _ => false

/-- A fully populated sample player at world position `(100, 100)`. -/
def samplePlayer : PlayerRec :=
  { id := some "p9", x := some 100, y := some 100, facing := some .north,
    animationFrame := none, avatar := some "ada", username := some "May" }

/-- The sample player far outside the viewport. -/
def farPlayer : PlayerRec := { samplePlayer with x := some 5000 }

/-- The sample player with screen x exactly one `avatarSize` outside the
left viewport edge (camera at the origin). -/
def edgePlayer : PlayerRec := { samplePlayer with x := some (-48) }

/-! Theorems. -/

/-- Unfolding `applyPlayersMoved` one binding at a time. -/
theorem applyPlayersMoved_cons (store : String → Option PlayerRec)
    (kv : String × PlayerRec) (rest : List (String × PlayerRec)) :
    applyPlayersMoved store (kv :: rest) =
      applyPlayersMoved (fun k => if k = kv.1 then some kv.2 else store k) rest := rfl

/-- Characterisation of `Object.assign(this.players, message.players)`:
at every key, the merged store holds the message's last binding for that
key as a whole, and falls back to the prior store when the key is not
mentioned. -/
theorem applyPlayersMoved_eq (store : String → Option PlayerRec)
    (moved : List (String × PlayerRec)) (k : String) :
    applyPlayersMoved store moved k = (lookupLast moved k).or (store k) := by
  induction moved generalizing store with
  | nil => simp [applyPlayersMoved, lookupLast]
  | cons kv rest ih =>
    rw [applyPlayersMoved_cons, ih]
    cases h : lookupLast rest k with
    | some v => simp [lookupLast, h]
    | none =>
      by_cases hk : k = kv.1
      · subst hk
        simp [lookupLast, h]
      · simp [lookupLast, h, hk]

/-- A key with no binding in the message has no last binding. -/
theorem lookupLast_eq_none (moved : List (String × PlayerRec)) (k : String)
    (h : ∀ v, (k, v) ∉ moved) : lookupLast moved k = none := by
  induction moved with
  | nil => rfl
  | cons kv rest ih =>
    have hrest : ∀ v, (k, v) ∉ rest := fun v hv => h v (List.mem_cons_of_mem _ hv)
    have hk : ¬ k = kv.1 := by
      intro hk
      exact h kv.2 (by subst hk; simp)
    simp [lookupLast, ih hrest, hk]

/-- Claim C1, counterexample.  The spec's scenario says merging the
`players_moved` partial `{p2: {x:5}}` into a store where `p2` is
`{x:1, y:1, facing:'north'}` yields `p2 = {x:5, y:1, facing:'north'}`.
In the code, `Object.assign(this.players, message.players)` rebinds
`this.players["p2"]` to the message's record as a whole, so the result is
`{x:5}`: the unmentioned fields `y` and `facing` are absent afterwards,
not retained. -/
theorem playersMoved_fieldSparse_counterexample :
    applyPlayersMoved storeBefore [("p2", p2Delta)] "p2" = some p2Delta ∧
    applyPlayersMoved storeBefore [("p2", p2Delta)] "p2" ≠ some p2Claimed := by
  constructor
  · rfl
  · decide

/-- Claim C1, amended.  `applyPlayersMoved` is a shallow merge at the
player-map level, not field-sparse per player: for every store, partial
map and id, the merged store holds the partial's last whole record for
each mentioned id (fields not mentioned in that record do not survive)
and the prior record for every unmentioned id.  In particular the spec
scenario yields `p2 = {x:5}`. -/
theorem playersMoved_replaces_mentioned_ids :
    (∀ (s : GameState) (moved : List (String × PlayerRec)),
        (handleServerMessage s (.playersMoved moved)).1.players =
          applyPlayersMoved s.players moved) ∧
    (∀ (store : String → Option PlayerRec) (moved : List (String × PlayerRec))
        (k : String),
        applyPlayersMoved store moved k = (lookupLast moved k).or (store k)) ∧
    applyPlayersMoved storeBefore [("p2", p2Delta)] "p2" = some p2Delta :=
  ⟨fun _ _ => rfl, applyPlayersMoved_eq, rfl⟩

/-- Claim C7: a `players_moved` merge leaves every player whose id is not
mentioned in the partial completely untouched (its whole prior record is
retained), and removes no player from the store. -/
theorem playersMoved_untouched_ids (s : GameState)
    (moved : List (String × PlayerRec)) (k k2 : String)
    (hk : ∀ v, (k, v) ∉ moved) (h2 : s.players k2 ≠ none) :
    (handleServerMessage s (.playersMoved moved)).1.players k = s.players k ∧
    (handleServerMessage s (.playersMoved moved)).1.players k2 ≠ none := by
  constructor
  · show applyPlayersMoved s.players moved k = s.players k
    rw [applyPlayersMoved_eq, lookupLast_eq_none moved k hk]
    rfl
  · show applyPlayersMoved s.players moved k2 ≠ none
    rw [applyPlayersMoved_eq]
    cases h : lookupLast moved k2 with
    | none => simpa [Option.or] using h2
    | some v => simp [Option.or]

/-- Claim C7, witness: merging `{p2: {x:5}}` into a store holding `p1`
and `p2` leaves `p1` untouched and removes no one. -/
theorem playersMoved_untouched_ids_witness :
    (handleServerMessage stateTwo (.playersMoved [("p2", p2Delta)])).1.players "p1" =
      stateTwo.players "p1" ∧
    (handleServerMessage stateTwo (.playersMoved [("p2", p2Delta)])).1.players "p2" ≠
      none :=
  playersMoved_untouched_ids stateTwo [("p2", p2Delta)] "p1" "p2"
    (by intro v hv; simp at hv) (by simp [stateTwo, storeTwo, initialState])

/-- Claim C2, counterexample.  The claim says a malformed inbound payload
is dropped with no exception escaping message handling.  In the code the
`onmessage` listener runs `JSON.parse(event.data)` with no `try`/`catch`
(lines 70-73), so an unparseable payload throws a `SyntaxError` that
escapes the listener: at this concrete input the "no exception escapes"
part is false (the store is indeed unchanged and nothing is repainted). -/
theorem inbound_malformed_counterexample :
    ¬ (onMessage initialState none).uncaught = false := by
  decide

/-- Claim C2, amended.  A payload whose action discriminator matches no
`case` of the `switch` is dropped: the store (players, avatars,
myPlayerId) is unchanged, no repaint or other effect is triggered, and no
exception escapes.  A payload that fails to parse also leaves the store
unchanged and triggers no repaint, but the `SyntaxError` escapes the
listener (the browser's event dispatch contains it, so the pipeline
continues). -/
theorem inbound_unknown_or_unparseable (s : GameState) (a : String) :
    onMessage s (some (.unknown a)) =
      { state := s, effects := emptyEffects, uncaught := false } ∧
    onMessage s none = { state := s, effects := emptyEffects, uncaught := true } :=
  ⟨rfl, rfl⟩

/-- Claim C8: a `join_game` response with `success = false` only logs:
the handler returns with `myPlayerId`, `players` and `avatars` all
unchanged, schedules no avatar load, and requests no repaint or UI
update. -/
theorem joinGame_failure_no_mutation (s : GameState) (pid : String)
    (ps : List (String × PlayerRec)) (avs : List (String × Avatar))
    (err : String) :
    handleServerMessage s (.joinGame false pid ps avs err) =
      (s, { emptyEffects with errorLog := true }) := rfl

/-- Claim C3: the recomputed camera offset is, per axis independently,
`clamp(position - viewport/2, min = 0, max = world - viewport)`, and
whenever the world is at least as large as the viewport on an axis the
offset lies within `[0, world - viewport]` on that axis. -/
theorem updateCamera_clamped (px py canvasW canvasH worldW worldH : ℚ)
    (hw : canvasW ≤ worldW) (hh : canvasH ≤ worldH) :
    updateCamera px py canvasW canvasH worldW worldH =
      (specClamp (px - canvasW / 2) 0 (worldW - canvasW),
       specClamp (py - canvasH / 2) 0 (worldH - canvasH)) ∧
    (0 ≤ (updateCamera px py canvasW canvasH worldW worldH).1 ∧
      (updateCamera px py canvasW canvasH worldW worldH).1 ≤ worldW - canvasW) ∧
    (0 ≤ (updateCamera px py canvasW canvasH worldW worldH).2 ∧
      (updateCamera px py canvasW canvasH worldW worldH).2 ≤ worldH - canvasH) ∧
    updateCamera 100 100 800 600 2000 2000 = (0, 0) ∧
    updateCamera 1900 1900 800 600 2000 2000 = (1200, 1400) := by
  refine ⟨rfl, ⟨le_max_left 0 _, ?_⟩, ⟨le_max_left 0 _, ?_⟩, ?_, ?_⟩
  · exact max_le (by linarith) (min_le_right _ _)
  · exact max_le (by linarith) (min_le_right _ _)
  · simp only [updateCamera, Prod.mk.injEq]
    norm_num
  · simp only [updateCamera, Prod.mk.injEq]
    norm_num

/-- Claim C3, witness: the spec scenario with the local player at
`(1900, 1900)`, a 2000 by 2000 world and an 800 by 600 viewport. -/
theorem updateCamera_clamped_witness :
    ((800 : ℚ) ≤ 2000) ∧ ((600 : ℚ) ≤ 2000) ∧
    (updateCamera 1900 1900 800 600 2000 2000 =
        (specClamp (1900 - 800 / 2) 0 (2000 - 800),
         specClamp (1900 - 600 / 2) 0 (2000 - 600)) ∧
      (0 ≤ (updateCamera 1900 1900 800 600 2000 2000).1 ∧
        (updateCamera 1900 1900 800 600 2000 2000).1 ≤ 2000 - 800) ∧
      (0 ≤ (updateCamera 1900 1900 800 600 2000 2000).2 ∧
        (updateCamera 1900 1900 800 600 2000 2000).2 ≤ 2000 - 600) ∧
      updateCamera 100 100 800 600 2000 2000 = (0, 0) ∧
      updateCamera 1900 1900 800 600 2000 2000 = (1200, 1400)) :=
  ⟨by norm_num, by norm_num,
    updateCamera_clamped 1900 1900 800 600 2000 2000 (by norm_num) (by norm_num)⟩

/-- Claim C4: for every registered avatar and every frame index whose
east frame is loaded, resolving direction `west` at that index yields the
same image object as resolving `east` there, with the mirrored flag set
to true (west frames are never stored; they are derived from east). -/
theorem resolveFrame_west_mirrors_east (images : AvatarImages) (key : String)
    (idx : Nat) (dirImages : Direction → Option (Nat → Option Image))
    (frames : Nat → Option Image) (img : Image)
    (hkey : images key = some dirImages)
    (heast : dirImages Direction.east = some frames)
    (hidx : frames idx = some img) :
    resolveFrame images key Direction.east idx = some (img, false) ∧
    resolveFrame images key Direction.west idx = some (img, true) := by
  constructor <;> simp [resolveFrame, hkey, heast, hidx]

/-- Claim C4, witness: a concrete cache with the east frame `img0` loaded
at index 0. -/
theorem resolveFrame_west_mirrors_east_witness :
    resolveFrame sampleImages "ada" Direction.east 0 = some (img0, false) ∧
    resolveFrame sampleImages "ada" Direction.west 0 = some (img0, true) :=
  resolveFrame_west_mirrors_east sampleImages "ada" 0 sampleDirImages
    sampleFrames img0 rfl rfl rfl

/-- Claim C5: on every key transition (with the socket open), if at least
one arrow key is held exactly one directional intent is sent, chosen by
the fixed precedence up > down > left > right - in particular
ArrowLeft+ArrowRight held together sends the single intent `left`; if no
arrow key is held a stop intent is sent. -/
theorem handleMovement_precedence (k : KeysPressed) :
    ((k.arrowUp || k.arrowDown || k.arrowLeft || k.arrowRight) = true →
      ∃ d, handleMovement true k = some (.move d)) ∧
    ((k.arrowUp || k.arrowDown || k.arrowLeft || k.arrowRight) = false →
      handleMovement true k = some .stop) ∧
    (k.arrowUp = true → handleMovement true k = some (.move .up)) ∧
    (k.arrowUp = false → k.arrowDown = true →
      handleMovement true k = some (.move .down)) ∧
    (k.arrowUp = false → k.arrowDown = false → k.arrowLeft = true →
      handleMovement true k = some (.move .left)) ∧
    (k.arrowUp = false → k.arrowDown = false → k.arrowLeft = false →
      k.arrowRight = true → handleMovement true k = some (.move .right)) := by
  obtain ⟨u, d, l, r⟩ := k
  cases u <;> cases d <;> cases l <;> cases r <;> simp [handleMovement]

/-- Claim C5, witness: simultaneous ArrowLeft+ArrowRight held emits the
single intent `left`. -/
theorem handleMovement_precedence_witness :
    handleMovement true
        { arrowUp := false, arrowDown := false, arrowLeft := true, arrowRight := true } =
      some (.move .left) :=
  (handleMovement_precedence
    { arrowUp := false, arrowDown := false, arrowLeft := true, arrowRight := true
    }).2.2.2.2.1 rfl rfl rfl

/-- Each direction's segment of `frameLoads` is duplicate-free. -/
theorem nodup_frameLoads_segment (a : Avatar) (d : Direction) (m : Nat) :
    ((List.range m).map fun i => (a.name, d, i)).Nodup :=
  List.Nodup.map
    (fun _ _ h => congrArg (fun t : String × Direction × Nat => t.2.2) h)
    (List.nodup_range m)

/-- Segments of `frameLoads` for different directions share no element. -/
theorem frameLoads_segment_disjoint (a : Avatar) (d₁ d₂ : Direction)
    (m₁ m₂ : Nat) (hd : d₁ ≠ d₂) :
    List.Disjoint ((List.range m₁).map fun i => (a.name, d₁, i))
      ((List.range m₂).map fun i => (a.name, d₂, i)) := by
  intro x hx hy
  simp only [List.mem_map, List.mem_range] at hx hy
  obtain ⟨i, -, rfl⟩ := hx
  obtain ⟨j, -, hj⟩ := hy
  exact hd (congrArg (fun t : String × Direction × Nat => t.2.1) hj).symm

/-- The loads scheduled by a fresh `loadAvatarImage` call are
duplicate-free: no (avatar, direction, index) triple is scheduled
twice. -/
theorem nodup_frameLoads (a : Avatar) : (frameLoads a).Nodup := by
  refine List.Nodup.append
    (List.Nodup.append (nodup_frameLoads_segment a .north _)
      (nodup_frameLoads_segment a .south _)
      (frameLoads_segment_disjoint a .north .south _ _ (by simp)))
    (nodup_frameLoads_segment a .east _) ?_
  rw [List.disjoint_append_left]
  exact ⟨frameLoads_segment_disjoint a .north .east _ _ (by simp),
    frameLoads_segment_disjoint a .south .east _ _ (by simp)⟩

/-- The loads scheduled by a fresh `loadAvatarImage` call are exactly one
per (avatar name, stored direction, frame index within that direction's
list). -/
theorem mem_frameLoads (a : Avatar) (n : String) (d : Direction) (i : Nat) :
    (n, d, i) ∈ frameLoads a ↔ n = a.name ∧ i < (framesOf a d).length := by
  cases d <;>
    simp [frameLoads, framesOf, List.mem_append, List.mem_map, List.mem_range,
      Prod.mk.injEq, eq_comm, and_comm] <;>
    exact ⟨fun ⟨j, ⟨hij, hn⟩, hj⟩ => ⟨hn, by rw [hij]; exact hj⟩,
      fun ⟨hn, hi⟩ => ⟨i, ⟨rfl, hn⟩, hi⟩⟩

/-- Claim C6: avatar image loading is idempotent per avatar name.  A
second `loadAvatarImage` call for an avatar whose loading has already
begun is a no-op (the cache is unchanged and nothing is scheduled), and a
fresh call schedules each (avatar, direction, index) triple exactly once
- one load per frame index of each of the stored directions `north`,
`south`, `east`, with no duplicates - so frame sequences are never
reloaded during a session. -/
theorem loadAvatarImage_load_once (cache : String → Bool) (a : Avatar)
    (hfresh : cache a.name = false) :
    loadAvatarImage (loadAvatarImage cache a).1 a =
      ((loadAvatarImage cache a).1, []) ∧
    (loadAvatarImage cache a).2 = frameLoads a ∧
    (frameLoads a).Nodup ∧
    (∀ (n : String) (d : Direction) (i : Nat),
      (n, d, i) ∈ frameLoads a ↔ n = a.name ∧ i < (framesOf a d).length) := by
  refine ⟨?_, by simp [loadAvatarImage, hfresh], nodup_frameLoads a,
    mem_frameLoads a⟩
  simp [loadAvatarImage, hfresh]

/-- Claim C6, witness: loading `sampleAvatar` on a fresh client schedules
exactly its frame list, and a repeated call schedules nothing. -/
theorem loadAvatarImage_load_once_witness :
    noCache sampleAvatar.name = false ∧
    (loadAvatarImage (loadAvatarImage noCache sampleAvatar).1 sampleAvatar =
        ((loadAvatarImage noCache sampleAvatar).1, []) ∧
      (loadAvatarImage noCache sampleAvatar).2 = frameLoads sampleAvatar ∧
      (frameLoads sampleAvatar).Nodup ∧
      (∀ (n : String) (d : Direction) (i : Nat),
        (n, d, i) ∈ frameLoads sampleAvatar ↔
          n = sampleAvatar.name ∧ i < (framesOf sampleAvatar d).length)) :=
  ⟨rfl, loadAvatarImage_load_once noCache sampleAvatar rfl⟩

/-- `isVisible` holds exactly when the screen position lies within the
viewport extended by one `avatarSize` margin on every side. -/
theorem isVisible_iff (cameraX cameraY canvasW canvasH wx wy : ℚ) :
    isVisible cameraX cameraY canvasW canvasH wx wy = true ↔
      (-avatarSize ≤ wx - cameraX ∧ wx - cameraX ≤ canvasW + avatarSize ∧
       -avatarSize ≤ wy - cameraY ∧ wy - cameraY ≤ canvasH + avatarSize) := by
  simp [isVisible, worldToScreen, and_assoc]

/-- Claim C9: visibility culling.  A player whose screen position (world
position minus camera offset) is strictly more than one `avatarSize`
outside any viewport edge is never drawn; one whose screen position is
within the margins - including exactly `avatarSize` outside an edge, or
exactly on an edge - passes the cull (its `isVisible` check is true), and
is drawn whenever its avatar, cache entry and frame resolve. -/
theorem drawAvatar_culling (avatars : String → Option Avatar)
    (images : AvatarImages) (cameraX cameraY canvasW canvasH : ℚ)
    (p : PlayerRec) (wx wy : ℚ) (hx : p.x = some wx) (hy : p.y = some wy) :
    ((wx - cameraX < -avatarSize ∨ canvasW + avatarSize < wx - cameraX ∨
      wy - cameraY < -avatarSize ∨ canvasH + avatarSize < wy - cameraY) →
      drawAvatar avatars images cameraX cameraY canvasW canvasH p = none) ∧
    ((-avatarSize ≤ wx - cameraX ∧ wx - cameraX ≤ canvasW + avatarSize ∧
      -avatarSize ≤ wy - cameraY ∧ wy - cameraY ≤ canvasH + avatarSize) →
      isVisible cameraX cameraY canvasW canvasH wx wy = true ∧
      (∀ (key : String) (av : Avatar) (facing : Direction)
        (img : Image) (mir : Bool),
        p.avatar = some key → avatars key = some av →
        p.facing = some facing →
        resolveFrame images key facing (animIndex p) = some (img, mir) →
        drawAvatar avatars images cameraX cameraY canvasW canvasH p ≠ none)) := by
  constructor
  · intro h
    have hv : isVisible cameraX cameraY canvasW canvasH wx wy = false := by
      rw [Bool.eq_false_iff]
      intro hvt
      rcases (isVisible_iff cameraX cameraY canvasW canvasH wx wy).mp hvt with
        ⟨h1, h2, h3, h4⟩
      rcases h with h | h | h | h <;> linarith
    simp only [drawAvatar, hx, hy, hv, Bool.false_eq_true, if_false]
  · intro hin
    have hv : isVisible cameraX cameraY canvasW canvasH wx wy = true :=
      (isVisible_iff cameraX cameraY canvasW canvasH wx wy).mpr hin
    refine ⟨hv, ?_⟩
    intro key av facing img mir hak hav hfacing hres
    have him : ∃ dirImages, images key = some dirImages := by
      revert hres
      simp only [resolveFrame]
      cases images key with
      | none => intro hres; exact absurd hres (by simp)
      | some dirImages => intro _; exact ⟨dirImages, rfl⟩
    obtain ⟨dirImages, him⟩ := him
    simp only [drawAvatar, hx, hy, hv, if_true, hak, hav, him, hfacing, hres]
    simp

/-- Claim C9, witness: with the camera at the origin and an 800 by 600
viewport, a player at world x 5000 (screen x more than one sprite-size
beyond the right edge) is not drawn, and a player at screen x exactly
`-avatarSize` passes the cull and is drawn. -/
theorem drawAvatar_culling_witness :
    drawAvatar sampleAvatars sampleImages 0 0 800 600 farPlayer = none ∧
    isVisible 0 0 800 600 (-48) 100 = true ∧
    drawAvatar sampleAvatars sampleImages 0 0 800 600 edgePlayer ≠ none :=
  ⟨(drawAvatar_culling sampleAvatars sampleImages 0 0 800 600 farPlayer
      5000 100 rfl rfl).1
      (Or.inr (Or.inl (by norm_num [avatarSize]))),
    ((drawAvatar_culling sampleAvatars sampleImages 0 0 800 600 edgePlayer
      (-48) 100 rfl rfl).2 (by norm_num [avatarSize])).1,
    ((drawAvatar_culling sampleAvatars sampleImages 0 0 800 600 edgePlayer
      (-48) 100 rfl rfl).2 (by norm_num [avatarSize])).2
      "ada" sampleAvatar .north img0 false rfl rfl rfl rfl⟩

/-- Claim C10: a rendered player whose `animationFrame` field is absent
(or the falsy number 0) is resolved at frame index 0 rather than failing
or being skipped: with the player visible and its avatar, cache entry and
frame 0 all present, `drawAvatar` produces the draw command built from
the direction's frame 0 image. -/
theorem drawAvatar_falsy_animationFrame (avatars : String → Option Avatar)
    (images : AvatarImages) (cameraX cameraY canvasW canvasH : ℚ)
    (p : PlayerRec) (wx wy : ℚ) (key : String) (av : Avatar)
    (dirImages : Direction → Option (Nat → Option Image))
    (frames : Nat → Option Image) (img : Image) (facing : Direction)
    (hx : p.x = some wx) (hy : p.y = some wy)
    (hanim : p.animationFrame = none ∨ p.animationFrame = some 0)
    (hvis : isVisible cameraX cameraY canvasW canvasH wx wy = true)
    (hak : p.avatar = some key)
    (hav : avatars key = some av)
    (him : images key = some dirImages)
    (hfacing : p.facing = some facing)
    (hframes :
      dirImages (if facing = Direction.west then Direction.east else facing) =
        some frames)
    (h0 : frames 0 = some img) :
    animIndex p = 0 ∧
    drawAvatar avatars images cameraX cameraY canvasW canvasH p =
      some { img := img
             flipHorizontal := decide (facing = Direction.west)
             x := (wx - cameraX) - avatarSize / 2
             y := (wy - cameraY) - avatarSize / (img.width / img.height)
             width := avatarSize
             height := avatarSize / (img.width / img.height)
             username := p.username } := by
  have hidx : animIndex p = 0 := by
    rcases hanim with h | h <;> simp [animIndex, h]
  have hres : resolveFrame images key facing (animIndex p) =
      some (img, decide (facing = Direction.west)) := by
    rw [hidx]
    simp only [resolveFrame, him, hframes, h0]
  refine ⟨hidx, ?_⟩
  simp only [drawAvatar, hx, hy, hvis, if_true, hak, hav, him, hfacing, hres,
    worldToScreen]

/-- Claim C10, witness: `samplePlayer` arrives without an
`animationFrame` field and is still drawn, at frame index 0, using
`img0`. -/
theorem drawAvatar_falsy_animationFrame_witness :
    animIndex samplePlayer = 0 ∧
    drawAvatar sampleAvatars sampleImages 0 0 800 600 samplePlayer =
      some { img := img0
             flipHorizontal := decide (Direction.north = Direction.west)
             x := ((100 : ℚ) - 0) - avatarSize / 2
             y := ((100 : ℚ) - 0) - avatarSize / (img0.width / img0.height)
             width := avatarSize
             height := avatarSize / (img0.width / img0.height)
             username := samplePlayer.username } :=
  drawAvatar_falsy_animationFrame sampleAvatars sampleImages 0 0 800 600
    samplePlayer 100 100 "ada" sampleAvatar sampleDirImages sampleFrames img0
    .north rfl rfl (Or.inl rfl)
    (by rw [isVisible_iff]; norm_num [avatarSize])
    rfl rfl rfl rfl rfl rfl

end Game
